import Mathlib

/-!
Verification of the target-resolution, eligibility-validation and
experiment-lifecycle core of the chaos-engineering agents repository.

The repository delegates the deterministic core (Target Resolver, Tag
Filter, Precondition Validator, Selection-Mode Evaluator, Experiment
Lifecycle Controller) to agent instructions; no executable implementation
of that core ships under src/.  The definitions below are therefore
modelled from the specification's words (each such definition says so in
its doc comment), and the theorems settle the frozen claims against this
model.
-/

namespace ChaosCore

/-- Modelled from the spec: ResourceRecord (spec section 3) — the executable
data model is missing from src/; only prompt text describes it.  Fields:
opaque stable id, resource type, type-specific state, tag map, and the
topology facts the precondition rules consult (parent-group member count,
availability-zone span, node-group desired size). -/
structure ResourceRecord where
  id : String
  rtype : String
  state : String
  tags : List (String × String)
  scopeKey : String
  groupMemberCount : Nat
  azCount : Nat
  desiredSize : Nat
deriving Repr, DecidableEq

/-- Modelled from the spec: WorkloadTagFilter (spec sections 3 and 4.2) —
zero or more required key=value pairs with AND semantics. -/
def WorkloadTagFilter := List (String × String)

/-- A single required key=value pair matches a resource when the resource's
tag map carries exactly that pair (case-sensitive String equality). -/
def matchesTag (r : ResourceRecord) (kv : String × String) : Bool :=
  r.tags.any (fun kv2 => kv2.1 == kv.1 && kv2.2 == kv.2)

/-- Modelled from the spec: the Tag Filter (spec section 4.2) — the subset
of the input whose tags are a superset of the filter; no executable tag
filter exists under src/ (only the agent prompt describing ALL-tags,
case-sensitive matching). -/
def tagFilter (filt : List (String × String)) (rs : List ResourceRecord) :
    List ResourceRecord :=
  rs.filter (fun r => filt.all (fun kv => matchesTag r kv))

/-- Modelled from the spec: selection modes (spec sections 3 and 4.4). -/
inductive SelectionMode where
  | count (n : Nat)
  | percent (p : Nat)
  | all
  | explicitIds (ids : List String)
deriving Repr, DecidableEq

/-- Modelled from the spec: ValidationResult status values (spec section 3). -/
inductive ValidationStatus where
  | valid
  | insufficient_resources
  | invalid_state
  | topology_violation
deriving Repr, DecidableEq

/-- Modelled from the spec: ValidationResult (spec section 3). -/
structure ValidationResult where
  status : ValidationStatus
  matched_resources : List ResourceRecord
  required_count : Nat
  found_count : Nat
  eligible_count : Nat
  reasons : List String
deriving Repr, DecidableEq

/-- Modelled from the spec: the Selection-Mode Evaluator (spec section 4.4)
— no executable evaluator exists under src/; only the agent prompt's
"Selection Mode Validation" rules.  Count(n) is valid iff at least n
eligible resources exist; Percent(p) requires ceil(p/100 x eligible_count)
with at least one resource; All requires at least one; Explicit requires
every listed id to be present and eligible. -/
def evaluateSelection (mode : SelectionMode) (eligible : List ResourceRecord) :
    ValidationResult :=
  match mode with
  | .count n =>
      if n ≤ eligible.length then
        { status := .valid, matched_resources := eligible.take n,
          required_count := n, found_count := eligible.length,
          eligible_count := eligible.length, reasons := [] }
      else
        { status := .insufficient_resources, matched_resources := [],
          required_count := n, found_count := eligible.length,
          eligible_count := eligible.length,
          reasons := ["insufficient resources: found " ++
            toString eligible.length ++ ", required " ++ toString n] }
  | .percent p =>
      let required := (p * eligible.length + 99) / 100
      if required ≤ eligible.length ∧ 1 ≤ required then
        { status := .valid, matched_resources := eligible.take required,
          required_count := required, found_count := eligible.length,
          eligible_count := eligible.length, reasons := [] }
      else
        { status := .insufficient_resources, matched_resources := [],
          required_count := required, found_count := eligible.length,
          eligible_count := eligible.length,
          reasons := ["insufficient resources: found " ++
            toString eligible.length ++ ", required " ++ toString required] }
  | .all =>
      if 1 ≤ eligible.length then
        { status := .valid, matched_resources := eligible,
          required_count := 1, found_count := eligible.length,
          eligible_count := eligible.length, reasons := [] }
      else
        { status := .insufficient_resources, matched_resources := [],
          required_count := 1, found_count := 0, eligible_count := 0,
          reasons := ["no eligible resources for ALL selection mode"] }
  | .explicitIds ids =>
      if ids.all (fun i => eligible.any (fun r => r.id == i)) then
        { status := .valid,
          matched_resources := eligible.filter (fun r => ids.contains r.id),
          required_count := ids.length, found_count := eligible.length,
          eligible_count := eligible.length, reasons := [] }
      else
        { status := .insufficient_resources, matched_resources := [],
          required_count := ids.length, found_count := eligible.length,
          eligible_count := eligible.length,
          reasons :=
            (ids.filter (fun i => !(eligible.any (fun r => r.id == i)))).map
              (fun i => "id missing or ineligible: " ++ i) }

/-- Demo resource carrying tags A=1 and B=2 (spec section 8, test 4). -/
def rA : ResourceRecord :=
  { id := "i-a", rtype := "aws:ec2:instance", state := "running",
    tags := [("A", "1"), ("B", "2")], scopeKey := "scope1",
    groupMemberCount := 1, azCount := 1, desiredSize := 1 }

/-- Demo resource carrying only tag A=1 (spec section 8, test 4). -/
def rB : ResourceRecord :=
  { id := "i-b", rtype := "aws:ec2:instance", state := "running",
    tags := [("A", "1")], scopeKey := "scope1",
    groupMemberCount := 1, azCount := 1, desiredSize := 1 }

/-- Demo resource tagged env=test. -/
def rC : ResourceRecord :=
  { id := "i-c", rtype := "aws:ec2:instance", state := "running",
    tags := [("env", "test")], scopeKey := "scope1",
    groupMemberCount := 2, azCount := 2, desiredSize := 2 }

/-- Modelled from the spec: outcome of one precondition rule applied to one
candidate resource (spec section 4.3): eligibility plus a retained reason. -/
structure RuleResult where
  eligible : Bool
  reason : String
deriving Repr, DecidableEq

/-- Generic "active" states used by the permissive default and by the
instance-lifecycle rule (spec section 4.3; the agent prompt's resource
state validation lists running/Running/RUNNING, ACTIVE, available,
Active). -/
def activeStates : List String :=
  ["running", "Running", "RUNNING", "active", "Active", "ACTIVE", "available"]

/-- A resource is generically active when its state is one of the
recognised active states. -/
def genericallyActive (r : ResourceRecord) : Bool :=
  activeStates.contains r.state

/-- Modelled from the spec: replicated-store failover precondition
(spec section 4.3) — requires at least 2 replication-group members;
ineligible resources retain a reason naming the requirement and the found
member count. -/
def failoverRule (r : ResourceRecord) : RuleResult :=
  if 2 ≤ r.groupMemberCount then
    { eligible := true,
      reason := "replication group has " ++ toString r.groupMemberCount ++
        " members" }
  else
    { eligible := false,
      reason := "requires at least 2 members, found " ++
        toString r.groupMemberCount }

/-- Modelled from the spec: instance lifecycle precondition (spec section
4.3) — requires a running/active state. -/
def instanceLifecycleRule (r : ResourceRecord) : RuleResult :=
  if genericallyActive r then
    { eligible := true, reason := "resource state " ++ r.state ++ " is active" }
  else
    { eligible := false,
      reason := "requires a running/active state, found " ++ r.state }

/-- Modelled from the spec: load-balancer zone-failure precondition (spec
section 4.3) — requires a span of at least 2 availability zones. -/
def zoneFailureRule (r : ResourceRecord) : RuleResult :=
  if 2 ≤ r.azCount then
    { eligible := true,
      reason := "spans " ++ toString r.azCount ++ " availability zones" }
  else
    { eligible := false,
      reason := "requires at least 2 availability zones, found " ++
        toString r.azCount }

/-- Modelled from the spec: node-group termination precondition (spec
section 4.3) — requires a desired size of at least 2. -/
def nodegroupTerminationRule (r : ResourceRecord) : RuleResult :=
  if 2 ≤ r.desiredSize then
    { eligible := true,
      reason := "node group desired size is " ++ toString r.desiredSize }
  else
    { eligible := false,
      reason := "requires desired size at least 2, found " ++
        toString r.desiredSize }

/-- Modelled from the spec: the Precondition Validator's extensible rule
registry (spec sections 4.3 and 9) mapping action ids to per-resource
predicates; the executable registry is missing from src/ (only the agent
prompt's non-exhaustive rule table). -/
def preconditionRegistry : List (String × (ResourceRecord → RuleResult)) :=
  [("aws:rds:failover-db-cluster", failoverRule),
   ("aws:rds:reboot-db-instances", instanceLifecycleRule),
   ("aws:ecs:stop-task", instanceLifecycleRule),
   ("aws:ec2:stop-instances", instanceLifecycleRule),
   ("aws:ec2:reboot-instances", instanceLifecycleRule),
   ("aws:elasticloadbalancing:unavailable-az", zoneFailureRule),
   ("aws:eks:terminate-nodegroup-instances", nodegroupTerminationRule)]

/-- Look up the registered precondition rule for an action id. -/
def lookupRule (action : String) : Option (ResourceRecord → RuleResult) :=
  (preconditionRegistry.find? (fun e => e.1 == action)).map (fun e => e.2)

/-- Per-resource classification outcome: the rule result plus any warning
notes attached during classification. -/
structure Classified where
  result : RuleResult
  warnings : List String
deriving Repr, DecidableEq

/-- Modelled from the spec: per-resource classification by the
Precondition Validator (spec section 4.3).  A registered action id applies
its rule; an unrecognized action id falls back to the permissive default
(eligible iff the candidate resource, which exists in the inventory, is in
a generically active state) and attaches a warning note. -/
def classifyResource (action : String) (r : ResourceRecord) : Classified :=
  match lookupRule action with
  | some rule => { result := rule r, warnings := [] }
  | none =>
      { result :=
          if genericallyActive r then
            { eligible := true,
              reason := "permissive default: resource exists and is active" }
          else
            { eligible := false,
              reason := "permissive default: resource exists but is not in an active state" },
        warnings := ["unrecognized action " ++ action ++
          ": applied permissive default eligibility"] }

/-- Modelled from the spec: TargetDescriptor (spec section 3). -/
structure TargetDescriptor where
  resource_type : String
  selection_mode : SelectionMode
  scope : String
  action_id : String
deriving Repr, DecidableEq

/-- Resource types the Target Resolver knows how to query (spec section
4.1: an unknown resource type fails immediately with a classified
error). -/
def knownResourceTypes : List String :=
  ["aws:ec2:instance", "aws:ecs:task", "aws:eks:pod", "aws:rds:cluster",
   "aws:lambda:function", "aws:elasticloadbalancing:loadbalancer",
   "aws:eks:nodegroup"]

/-- Modelled from the spec: classified discovery errors (spec sections 4.1
and 7). -/
inductive DiscoveryError where
  | unknownResourceType (rtype : String)
deriving Repr, DecidableEq

/-- Modelled from the spec: the Target Resolver (spec section 4.1) — a
read-only bulk query returning every inventory record matching the
descriptor's type and scope; an unknown resource type is a classified
error, and an empty scope yields an empty set rather than an exception. -/
def resolveTarget (inv : List ResourceRecord) (td : TargetDescriptor) :
    Except DiscoveryError (List ResourceRecord) :=
  if knownResourceTypes.contains td.resource_type then
    .ok (inv.filter (fun r =>
      r.rtype == td.resource_type && r.scopeKey == td.scope))
  else
    .error (.unknownResourceType td.resource_type)

/-- Modelled from the spec: one full validation run (spec sections 2, 4
and the prompt's Validation Implementation Pattern): Resolver, then Tag
Filter, then Precondition Validator, then Selection-Mode Evaluator, in
strict sequence, retaining per-resource reasons and warnings. -/
def validateTarget (inv : List ResourceRecord)
    (filt : List (String × String)) (td : TargetDescriptor) :
    Except DiscoveryError ValidationResult :=
  match resolveTarget inv td with
  | .error e => .error e
  | .ok rs =>
      let tagged := tagFilter filt rs
      let classified := tagged.map (fun r => (r, classifyResource td.action_id r))
      let eligible :=
        (classified.filter (fun rc => rc.2.result.eligible)).map (fun rc => rc.1)
      let perResource :=
        classified.map (fun rc => rc.1.id ++ ": " ++ rc.2.result.reason)
      let warnings := (classified.map (fun rc => rc.2.warnings)).flatten
      let base := evaluateSelection td.selection_mode eligible
      .ok { base with reasons := base.reasons ++ perResource ++ warnings }

/-- Modelled from the spec: experiment status values (spec section 4.5 and
the prompt's Database Status Flow). -/
inductive ExpStatus where
  | draft
  | validating
  | created
  | running
  | completed
  | failed
  | stopped
  | timeout
  | validation_failed
  | resource_unavailable
  | permission_error
  | creation_failed
  | template_invalid
  | service_limit
deriving Repr, DecidableEq

/-- Modelled from the spec: ExperimentRecord (spec section 3), including
the cached result of a previous validation run (never trusted by the
controller). -/
structure ExperimentRecord where
  id : String
  hypothesisId : String
  target : TargetDescriptor
  status : ExpStatus
  fisTemplateId : Option String
  notes : List String
  prevValidation : Option ValidationResult
deriving Repr, DecidableEq

/-- Outcome reported when a validation run settles (spec section 4.5). -/
inductive ValidationOutcome where
  | passed
  | insufficient
  | wrongState
  | noPermission
deriving Repr, DecidableEq

/-- Classification of a fault-injection service rejection (spec section
4.5). -/
inductive RejectClass where
  | badTemplate
  | limitHit
  | otherRejection
deriving Repr, DecidableEq

/-- Terminal outcome reported by the execution service (spec section
4.5). -/
inductive RunOutcome where
  | succeeded
  | errored
  | wasStopped
  | timedOut
deriving Repr, DecidableEq

/-- Modelled from the spec: the lifecycle operations of the Experiment
Lifecycle Controller (spec section 4.5); retryOp is the explicit external
retry. -/
inductive LifecycleOp where
  | validateOp
  | settleValidation (o : ValidationOutcome)
  | createRejected (c : RejectClass)
  | executeOp
  | settleRun (o : RunOutcome)
  | retryOp
deriving Repr, DecidableEq

/-- Status reached when a validation run settles (spec section 4.5). -/
def statusOfValidationOutcome : ValidationOutcome → ExpStatus
  | .passed => .created
  | .insufficient => .validation_failed
  | .wrongState => .resource_unavailable
  | .noPermission => .permission_error

/-- Status reached when the service rejects the materialized template
(spec section 4.5). -/
def statusOfRejectClass : RejectClass → ExpStatus
  | .badTemplate => .template_invalid
  | .limitHit => .service_limit
  | .otherRejection => .creation_failed

/-- Status reached when a run terminates (spec section 4.5). -/
def statusOfRunOutcome : RunOutcome → ExpStatus
  | .succeeded => .completed
  | .errored => .failed
  | .wasStopped => .stopped
  | .timedOut => .timeout

/-- Explicit rejection raised for a transition outside the declared
graph. -/
inductive LifecycleError where
  | invalidTransition (fromStatus : ExpStatus) (op : LifecycleOp)
deriving Repr, DecidableEq

/-- Modelled from the spec: one lifecycle transition (spec section 4.5).
Transitions follow the declared graph; an operation applied in any other
state is rejected with an explicit invalidTransition error, never silently
ignored; every accepted transition persists a note; the external retry
resets the record to draft and clears the notes. -/
def applyOp (op : LifecycleOp) (r : ExperimentRecord) :
    Except LifecycleError ExperimentRecord :=
  match op with
  | .retryOp => .ok { r with status := .draft, notes := [] }
  | .validateOp =>
      if r.status = .draft then
        .ok { r with
          status := .validating
          notes := r.notes ++ ["validation started"] }
      else .error (.invalidTransition r.status .validateOp)
  | .settleValidation o =>
      if r.status = .validating then
        .ok { r with
          status := statusOfValidationOutcome o
          notes := r.notes ++ ["validation settled"] }
      else .error (.invalidTransition r.status (.settleValidation o))
  | .createRejected c =>
      if r.status = .created then
        .ok { r with
          status := statusOfRejectClass c
          notes := r.notes ++ ["template rejected"] }
      else .error (.invalidTransition r.status (.createRejected c))
  | .executeOp =>
      if r.status = .created then
        .ok { r with
          status := .running
          notes := r.notes ++ ["execution started"] }
      else .error (.invalidTransition r.status .executeOp)
  | .settleRun o =>
      if r.status = .running then
        .ok { r with
          status := statusOfRunOutcome o
          notes := r.notes ++ ["run settled"] }
      else .error (.invalidTransition r.status (.settleRun o))

/-- Run a sequence of lifecycle operations; a rejected operation leaves
the record unchanged (the rejection itself is the explicit error that
applyOp reports). -/
def runOps : List LifecycleOp → ExperimentRecord → ExperimentRecord
  | [], r => r
  | op :: ops, r =>
      runOps ops
        (match applyOp op r with
          | .ok r2 => r2
          | .error _ => r)

/-- Modelled from the spec: the error taxonomy at the Controller's public
boundary (spec section 7). -/
inductive ErrorClass where
  | discoveryFailure (e : DiscoveryError)
  | insufficientResources
  | preconditionViolation
  | templateRejected
  | serviceLimitExceeded
  | creationFailed
  | experimentNotFound
deriving Repr, DecidableEq

/-- Error classification of a non-valid validation status (spec section
7). -/
def errorClassOf : ValidationStatus → ErrorClass
  | .valid => .insufficientResources
  | .insufficient_resources => .insufficientResources
  | .invalid_state => .preconditionViolation
  | .topology_violation => .preconditionViolation

/-- Modelled from the spec: the Fault-Injection Execution Service's
response to create_template (spec section 6). -/
inductive FisResponse where
  | accepted (templateId : String)
  | rejectedTemplate (msg : String)
  | rejectedLimit (msg : String)
  | rejectedOther (msg : String)
deriving Repr, DecidableEq

/-- Modelled from the spec: the result type at the Controller's public
boundary (spec section 7) — either a new persisted state plus detail, or a
definitive error classification plus detail. -/
inductive ControllerResult where
  | transitioned (newStatus : ExpStatus) (detail : String)
  | rejectedOp (err : ErrorClass) (detail : String)
deriving Repr, DecidableEq

/-- Look an experiment up in the persistent store by id. -/
def findRecord (store : List ExperimentRecord) (eid : String) :
    Option ExperimentRecord :=
  store.find? (fun r => r.id == eid)

/-- Persist an updated experiment record, replacing every stored record
carrying its id. -/
def setRecord (store : List ExperimentRecord) (rec : ExperimentRecord) :
    List ExperimentRecord :=
  store.map (fun r => if r.id == rec.id then rec else r)

/-- The terminal failure statuses in which a failed experiment remains
queryable (spec sections 4.5 and 7). -/
def failureStatuses : List ExpStatus :=
  [.validation_failed, .resource_unavailable, .permission_error,
   .creation_failed, .template_invalid, .service_limit,
   .failed, .stopped, .timeout]

/-- Modelled from the spec: a creation request at the Lifecycle
Controller's public boundary (spec sections 4.5 and 7) — the executable
controller is missing from src/ (only the agent prompt's workflow and
error-handling instructions).  The controller re-runs the full validation
pipeline on the current inventory, classifies every failure, and persists
the failing experiment with diagnostic notes instead of dropping it. -/
def controllerCreate (inv : List ResourceRecord)
    (filt : List (String × String)) (fis : FisResponse)
    (store : List ExperimentRecord) (eid : String) :
    List ExperimentRecord × ControllerResult :=
  match findRecord store eid with
  | none =>
      (store, .rejectedOp .experimentNotFound ("no experiment with id " ++ eid))
  | some rec =>
      match validateTarget inv filt rec.target with
      | .error e =>
          let rec2 := { rec with
            status := .resource_unavailable
            notes := rec.notes ++ ["discovery failed"]
            prevValidation := none }
          (setRecord store rec2,
            .rejectedOp (.discoveryFailure e) "discovery failed")
      | .ok v =>
          if v.status = .valid then
            match fis with
            | .accepted tid =>
                let rec2 := { rec with
                  status := .created
                  fisTemplateId := some tid
                  prevValidation := some v
                  notes := rec.notes ++ ["created template " ++ tid] }
                (setRecord store rec2,
                  .transitioned .created ("created template " ++ tid))
            | .rejectedTemplate m =>
                let rec2 := { rec with
                  status := .template_invalid
                  prevValidation := some v
                  notes := rec.notes ++ ["template rejected: " ++ m] }
                (setRecord store rec2, .rejectedOp .templateRejected m)
            | .rejectedLimit m =>
                let rec2 := { rec with
                  status := .service_limit
                  prevValidation := some v
                  notes := rec.notes ++ ["service limit exceeded: " ++ m] }
                (setRecord store rec2, .rejectedOp .serviceLimitExceeded m)
            | .rejectedOther m =>
                let rec2 := { rec with
                  status := .creation_failed
                  prevValidation := some v
                  notes := rec.notes ++ ["creation failed: " ++ m] }
                (setRecord store rec2, .rejectedOp .creationFailed m)
          else
            let rec2 := { rec with
              status := .validation_failed
              prevValidation := some v
              notes := rec.notes ++ ["validation failed"] ++ v.reasons }
            (setRecord store rec2,
              .rejectedOp (errorClassOf v.status) "validation failed")

/-- Modelled from the spec: the explicit, declared fallback-action
substitution table (spec sections 7 and 9; the agent prompt declares the
single entry switching the RDS cluster failover action to the instance
reboot action). -/
def fallbackActions : List (String × String) :=
  [("aws:rds:failover-db-cluster", "aws:rds:reboot-db-instances")]

/-- Look up the declared fallback action for an action id. -/
def lookupFallback (action : String) : Option String :=
  (fallbackActions.find? (fun e => e.1 == action)).map (fun e => e.2)

/-- The note persisted when a declared fallback substitution is applied
(the agent prompt requires the switch to be recorded in the experiment
notes). -/
def substitutionNote (action alt : String) : String :=
  "Switched from " ++ action ++ " to " ++ alt ++
    " action because the precondition failed"

/-- Modelled from the spec: the fallback policy on a precondition
violation (spec section 7) — a substitution happens only when a fallback
action is explicitly configured, and it is always recorded in the notes,
never applied silently. -/
def applyFallbackPolicy (action : String) (violated : Bool)
    (notes : List String) : String × List String :=
  if violated then
    match lookupFallback action with
    | some alt => (alt, notes ++ [substitutionNote action alt])
    | none => (action, notes)
  else (action, notes)

/-- Modelled from the spec: the calls available at the Resource Inventory
Provider interface (spec section 6), including the mutating call the
Resolver is forbidden to issue. -/
inductive InventoryCall where
  | listResources (rtype : String) (scope : String)
  | describeResource (rid : String)
  | mutateResource (rid : String) (newState : String)
deriving Repr, DecidableEq

/-- Whether an inventory call is read-only. -/
def InventoryCall.isReadOnly : InventoryCall → Bool
  | .listResources _ _ => true
  | .describeResource _ => true
  | .mutateResource _ _ => false

/-- Effect of one inventory call on the external resource inventory:
queries leave it unchanged, the mutating call rewrites the state of the
named resource. -/
def applyCall (inv : List ResourceRecord) (c : InventoryCall) :
    List ResourceRecord :=
  match c with
  | .listResources _ _ => inv
  | .describeResource _ => inv
  | .mutateResource rid ns =>
      inv.map (fun r => if r.id == rid then { r with state := ns } else r)

/-- Effect of a sequence of inventory calls on the inventory. -/
def applyCalls (inv : List ResourceRecord) (cs : List InventoryCall) :
    List ResourceRecord :=
  cs.foldl applyCall inv

/-- Modelled from the spec: the calls one discovery run issues at the
Resolver's interface boundary (spec sections 4.1 and 6) — one bulk list
query per inventory page, aggregated before validation proceeds; never a
mutating call. -/
def resolverTrace (td : TargetDescriptor) (pages : Nat) : List InventoryCall :=
  (List.range (pages + 1)).map
    (fun _ => .listResources td.resource_type td.scope)

/-- Modelled from the spec: the Experiment Design step's FIS-compatibility
handling — the executable design agent is absent from src/ (only the
ExperimentDesignAgent README's "Handle FIS Compatibility" instructions):
a FIS-compatible experiment is inserted with status draft, an incompatible
one is inserted with status validation_failed plus explanatory notes, so
every processed hypothesis gets a persisted record. -/
def designHandleCompatibility (db : List ExperimentRecord) (hypId : String)
    (td : TargetDescriptor) (fisTestable : Bool) (incompatReason : String) :
    List ExperimentRecord :=
  if fisTestable then
    { id := "exp-" ++ hypId, hypothesisId := hypId, target := td,
      status := .draft, fisTemplateId := none, notes := [],
      prevValidation := none } :: db
  else
    { id := "exp-" ++ hypId, hypothesisId := hypId, target := td,
      status := .validation_failed, fisTemplateId := none,
      notes := ["FIS cannot test this target: " ++ incompatReason],
      prevValidation := none } :: db

/-- Demo target descriptor: stop running EC2 instances, Count(1). -/
def tdDemo : TargetDescriptor :=
  { resource_type := "aws:ec2:instance", selection_mode := .count 1,
    scope := "scope1", action_id := "aws:ec2:stop-instances" }

/-- Demo RDS cluster resource whose replication group has exactly one
member. -/
def rSingle : ResourceRecord :=
  { id := "db-1", rtype := "aws:rds:cluster", state := "available",
    tags := [], scopeKey := "scope1",
    groupMemberCount := 1, azCount := 1, desiredSize := 1 }

/-- Demo target descriptor whose action id is not in the precondition
rule registry. -/
def tdUnknownAction : TargetDescriptor :=
  { resource_type := "aws:ec2:instance", selection_mode := .all,
    scope := "scope1", action_id := "aws:custom:new-action" }

/-- Demo experiment record in the completed terminal state. -/
def recCompleted : ExperimentRecord :=
  { id := "exp-1", hypothesisId := "hyp-1", target := tdDemo,
    status := .completed, fisTemplateId := some "EXT1",
    notes := ["done"], prevValidation := none }

/-- Demo experiment record in draft. -/
def recDraft : ExperimentRecord :=
  { id := "exp-2", hypothesisId := "hyp-2", target := tdDemo,
    status := .draft, fisTemplateId := none,
    notes := [], prevValidation := none }

theorem matchesTag_iff (r : ResourceRecord) (kv : String × String) :
    matchesTag r kv = true ↔ kv ∈ r.tags := by
  constructor
  · intro h
    simp only [matchesTag, List.any_eq_true, Bool.and_eq_true, beq_iff_eq] at h
    obtain ⟨kv2, hmem, h1, h2⟩ := h
    have : kv2 = kv := Prod.ext h1 h2
    rwa [this] at hmem
  · intro h
    simp only [matchesTag, List.any_eq_true, Bool.and_eq_true, beq_iff_eq]
    exact ⟨kv, h, rfl, rfl⟩

/-- Claim C3: for every resource list and workload tag filter, the tag
filter returns exactly the resources whose tag map is a superset of the
filter under exact, case-sensitive comparison of every required key/value
pair, and the empty filter returns the input list unchanged. -/
theorem tag_filter_correct (filt : List (String × String))
    (rs : List ResourceRecord) :
    (∀ r, r ∈ tagFilter filt rs ↔ r ∈ rs ∧ ∀ kv ∈ filt, kv ∈ r.tags) ∧
    tagFilter [] rs = rs := by
  constructor
  · intro r
    simp [tagFilter, List.mem_filter, List.all_eq_true, matchesTag_iff]
  · simp [tagFilter]

/-- Witness for C3 at the spec's concrete test: resources tagged
{A=1,B=2} and {A=1}; the filter {A=1,B=2} keeps exactly the first, and
the empty filter returns both unchanged. -/
theorem tag_filter_correct_witness :
    tagFilter [("A", "1"), ("B", "2")] [rA, rB] = [rA] ∧
    (rA ∈ tagFilter [("A", "1"), ("B", "2")] [rA, rB] ↔
      rA ∈ [rA, rB] ∧ ∀ kv ∈ [("A", "1"), ("B", "2")], kv ∈ rA.tags) ∧
    tagFilter [] [rA, rB] = [rA, rB] :=
  ⟨by decide, (tag_filter_correct [("A", "1"), ("B", "2")] [rA, rB]).1 rA,
    (tag_filter_correct [("A", "1"), ("B", "2")] [rA, rB]).2⟩

/-- Claim C5: Count(n) against an eligible list of length k is valid iff
k is at least n, and on validity matched_resources is exactly the first n
eligible resources (so it has length exactly n). -/
theorem count_selection_correct (n : Nat) (eligible : List ResourceRecord) :
    ((evaluateSelection (.count n) eligible).status = .valid ↔
      n ≤ eligible.length) ∧
    (n ≤ eligible.length →
      (evaluateSelection (.count n) eligible).matched_resources.length = n ∧
      (evaluateSelection (.count n) eligible).matched_resources =
        eligible.take n) := by
  by_cases h : n ≤ eligible.length
  · simp [evaluateSelection, h, List.length_take, Nat.min_eq_left h]
  · simp [evaluateSelection, h]

/-- Witness for C5 at n = 2 over a three-element eligible list. -/
theorem count_selection_correct_witness :
    ((evaluateSelection (.count 2) [rA, rB, rC]).status = .valid ↔
      2 ≤ ([rA, rB, rC] : List ResourceRecord).length) ∧
    (2 ≤ ([rA, rB, rC] : List ResourceRecord).length →
      (evaluateSelection (.count 2) [rA, rB, rC]).matched_resources.length = 2 ∧
      (evaluateSelection (.count 2) [rA, rB, rC]).matched_resources =
        ([rA, rB, rC] : List ResourceRecord).take 2) :=
  count_selection_correct 2 [rA, rB, rC]

/-- Claim C1: Percent(p) against an eligible list of length k reports
required = ceil(p * k / 100); it is valid iff k is at least required and
required is at least 1 (so Percent of an empty eligible list is never
valid), and on validity matched_resources is exactly the first required
eligible resources. -/
theorem percent_selection_correct (p : Nat) (eligible : List ResourceRecord) :
    (evaluateSelection (.percent p) eligible).required_count =
      (p * eligible.length) ⌈/⌉ 100 ∧
    ((evaluateSelection (.percent p) eligible).status = .valid ↔
      (evaluateSelection (.percent p) eligible).required_count ≤
        eligible.length ∧
      1 ≤ (evaluateSelection (.percent p) eligible).required_count) ∧
    (eligible = [] →
      (evaluateSelection (.percent p) eligible).status ≠ .valid) ∧
    ((evaluateSelection (.percent p) eligible).status = .valid →
      (evaluateSelection (.percent p) eligible).matched_resources =
        eligible.take
          ((evaluateSelection (.percent p) eligible).required_count)) := by
  have hceil : (p * eligible.length + 99) / 100 =
      (p * eligible.length) ⌈/⌉ 100 := by
    rw [Nat.ceilDiv_eq_add_pred_div]
    congr 1
  by_cases h : (p * eligible.length + 99) / 100 ≤ eligible.length ∧
      1 ≤ (p * eligible.length + 99) / 100
  · refine ⟨?_, ?_, ?_, ?_⟩ <;>
      simp only [evaluateSelection, if_pos h]
    · exact hceil
    · simpa using h
    · intro he
      rw [he] at h
      simp at h
    · intro _
      trivial
  · refine ⟨?_, ?_, ?_, ?_⟩ <;>
      simp only [evaluateSelection, if_neg h]
    · exact hceil
    · simpa using h
    · intro _
      simp
    · intro hv
      simp at hv

/-- Witness for C1 at the spec's concrete test: Percent(50) of three
eligible resources requires ceil(150/100) = 2 and is valid. -/
theorem percent_selection_correct_witness :
    (evaluateSelection (.percent 50) [rA, rB, rC]).required_count =
      (50 * ([rA, rB, rC] : List ResourceRecord).length) ⌈/⌉ 100 ∧
    ((evaluateSelection (.percent 50) [rA, rB, rC]).status = .valid ↔
      (evaluateSelection (.percent 50) [rA, rB, rC]).required_count ≤
        ([rA, rB, rC] : List ResourceRecord).length ∧
      1 ≤ (evaluateSelection (.percent 50) [rA, rB, rC]).required_count) ∧
    (([rA, rB, rC] : List ResourceRecord) = [] →
      (evaluateSelection (.percent 50) [rA, rB, rC]).status ≠ .valid) ∧
    ((evaluateSelection (.percent 50) [rA, rB, rC]).status = .valid →
      (evaluateSelection (.percent 50) [rA, rB, rC]).matched_resources =
        ([rA, rB, rC] : List ResourceRecord).take
          ((evaluateSelection (.percent 50) [rA, rB, rC]).required_count)) :=
  percent_selection_correct 50 [rA, rB, rC]

theorem applyOp_completed (op : LifecycleOp) (r : ExperimentRecord)
    (hc : r.status = .completed) (hop : op ≠ .retryOp) :
    applyOp op r = .error (.invalidTransition r.status op) := by
  cases op with
  | retryOp => exact absurd rfl hop
  | validateOp => simp [applyOp, hc]
  | settleValidation o => simp [applyOp, hc]
  | createRejected c => simp [applyOp, hc]
  | executeOp => simp [applyOp, hc]
  | settleRun o => simp [applyOp, hc]

theorem runOps_completed (ops : List LifecycleOp) (r : ExperimentRecord)
    (hc : r.status = .completed) (hnr : LifecycleOp.retryOp ∉ ops) :
    runOps ops r = r := by
  induction ops with
  | nil => rfl
  | cons op ops ih =>
      have hop : op ≠ .retryOp := by
        intro h
        exact hnr (by rw [h]; exact List.mem_cons_self _ _)
      show runOps ops (match applyOp op r with
        | .ok r2 => r2
        | .error _ => r) = r
      rw [applyOp_completed op r hc hop]
      exact ih (fun h => hnr (List.mem_cons_of_mem _ h))

/-- Claim C2: no sequence of lifecycle operations free of the external
retry moves a completed record back to validating (the record stays
completed); every non-retry operation attempted on a completed record is
rejected with an explicit invalidTransition error, never silently
accepted; and the only backward move, the external retry, resets the
record to draft with its notes cleared. -/
theorem completed_never_back_to_validating (ops : List LifecycleOp)
    (r : ExperimentRecord) (hc : r.status = .completed)
    (hnr : LifecycleOp.retryOp ∉ ops) :
    (runOps ops r).status = .completed ∧
    (runOps ops r).status ≠ .validating ∧
    (∀ op : LifecycleOp, op ≠ .retryOp →
      applyOp op r = .error (.invalidTransition r.status op)) ∧
    applyOp .retryOp r = .ok { r with status := .draft, notes := [] } := by
  have hrun := runOps_completed ops r hc hnr
  refine ⟨?_, ?_, ?_, ?_⟩
  · rw [hrun, hc]
  · rw [hrun, hc]
    intro h
    exact absurd h (by simp)
  · intro op hop
    exact applyOp_completed op r hc hop
  · rfl

/-- Witness for C2: a completed record subjected to a validate and an
execute attempt stays completed, both attempts raise explicit errors, and
retry resets it to draft with notes cleared. -/
theorem completed_never_back_to_validating_witness :
    recCompleted.status = .completed ∧
    LifecycleOp.retryOp ∉ ([.validateOp, .executeOp] : List LifecycleOp) ∧
    ((runOps [.validateOp, .executeOp] recCompleted).status = .completed ∧
     (runOps [.validateOp, .executeOp] recCompleted).status ≠ .validating ∧
     (∀ op : LifecycleOp, op ≠ .retryOp →
       applyOp op recCompleted =
         .error (.invalidTransition recCompleted.status op)) ∧
     applyOp .retryOp recCompleted =
       .ok { recCompleted with status := .draft, notes := [] }) :=
  ⟨rfl, by decide,
    completed_never_back_to_validating [.validateOp, .executeOp]
      recCompleted rfl (by decide)⟩

/-- Claim C4: the replicated-store failover precondition against a
replication group with exactly one member reports a violation whose
reason names the at-least-2-members requirement and the found count; the
fallback policy substitutes an alternative action only when one is
explicitly configured, and any substitution is recorded in the notes,
never applied silently. -/
theorem failover_single_member_violation (r : ResourceRecord)
    (action : String) (notes : List String) (h : r.groupMemberCount = 1) :
    (classifyResource "aws:rds:failover-db-cluster" r).result.eligible =
      false ∧
    (classifyResource "aws:rds:failover-db-cluster" r).result.reason =
      "requires at least 2 members, found 1" ∧
    (lookupFallback action = none →
      applyFallbackPolicy action true notes = (action, notes)) ∧
    (∀ alt, lookupFallback action = some alt →
      applyFallbackPolicy action true notes =
        (alt, notes ++ [substitutionNote action alt])) := by
  have hrule : lookupRule "aws:rds:failover-db-cluster" = some failoverRule :=
    rfl
  refine ⟨?_, ?_, ?_, ?_⟩
  · simp [classifyResource, hrule, failoverRule, h]
  · simp [classifyResource, hrule, failoverRule, h]
    decide
  · intro hnone
    simp [applyFallbackPolicy, hnone]
  · intro alt halt
    simp [applyFallbackPolicy, halt]

/-- Witness for C4 at a concrete one-member RDS cluster and the declared
failover-to-reboot fallback entry. -/
theorem failover_single_member_violation_witness :
    rSingle.groupMemberCount = 1 ∧
    lookupFallback "aws:rds:failover-db-cluster" =
      some "aws:rds:reboot-db-instances" ∧
    ((classifyResource "aws:rds:failover-db-cluster" rSingle).result.eligible =
      false ∧
     (classifyResource "aws:rds:failover-db-cluster" rSingle).result.reason =
      "requires at least 2 members, found 1" ∧
     (lookupFallback "aws:rds:failover-db-cluster" = none →
       applyFallbackPolicy "aws:rds:failover-db-cluster" true ["n0"] =
         ("aws:rds:failover-db-cluster", ["n0"])) ∧
     (∀ alt, lookupFallback "aws:rds:failover-db-cluster" = some alt →
       applyFallbackPolicy "aws:rds:failover-db-cluster" true ["n0"] =
         (alt, ["n0"] ++
           [substitutionNote "aws:rds:failover-db-cluster" alt]))) :=
  ⟨rfl, rfl,
    failover_single_member_violation rSingle "aws:rds:failover-db-cluster"
      ["n0"] rfl⟩

/-- Claim C6: an action id absent from the precondition rule registry
classifies each candidate resource by the permissive default — eligible
iff the (existing) resource is in a generically active state — with a
warning note attached, and it never causes a hard failure of validation:
the pipeline still returns a ValidationResult. -/
theorem unknown_action_permissive (inv : List ResourceRecord)
    (filt : List (String × String)) (td : TargetDescriptor)
    (r : ResourceRecord) (hact : lookupRule td.action_id = none)
    (hty : td.resource_type ∈ knownResourceTypes) :
    (classifyResource td.action_id r).result.eligible =
      genericallyActive r ∧
    (classifyResource td.action_id r).warnings ≠ [] ∧
    ∃ v, validateTarget inv filt td = .ok v := by
  refine ⟨?_, ?_, ?_⟩
  · by_cases hg : genericallyActive r <;>
      simp [classifyResource, hact, hg]
  · simp [classifyResource, hact]
  · cases hvt : validateTarget inv filt td with
    | ok v => exact ⟨v, rfl⟩
    | error e =>
        simp [validateTarget, resolveTarget, hty] at hvt

/-- Witness for C6 at a concrete unrecognized action id over a running
EC2 instance. -/
theorem unknown_action_permissive_witness :
    lookupRule tdUnknownAction.action_id = none ∧
    tdUnknownAction.resource_type ∈ knownResourceTypes ∧
    ((classifyResource tdUnknownAction.action_id rA).result.eligible =
      genericallyActive rA ∧
     (classifyResource tdUnknownAction.action_id rA).warnings ≠ [] ∧
     ∃ v, validateTarget [rA, rB] [] tdUnknownAction = .ok v) :=
  ⟨rfl, by decide,
    unknown_action_permissive [rA, rB] [] tdUnknownAction rA rfl (by decide)⟩

theorem applyCalls_of_readOnly (cs : List InventoryCall)
    (inv : List ResourceRecord) (h : ∀ c ∈ cs, c.isReadOnly = true) :
    applyCalls inv cs = inv := by
  induction cs generalizing inv with
  | nil => rfl
  | cons c cs ih =>
      have hc := h c (List.mem_cons_self _ _)
      have hstep : applyCall inv c = inv := by
        cases c with
        | listResources t s => rfl
        | describeResource i => rfl
        | mutateResource i s => simp [InventoryCall.isReadOnly] at hc
      show applyCalls (applyCall inv c) cs = inv
      rw [hstep]
      exact ih inv (fun c2 h2 => h c2 (List.mem_cons_of_mem _ h2))

/-- Claim C9: every call a discovery run issues at the resolver's
interface boundary is read-only, and interpreting the whole trace against
any external inventory leaves that inventory unchanged. -/
theorem resolver_read_only (inv : List ResourceRecord)
    (td : TargetDescriptor) (pages : Nat) :
    (∀ c ∈ resolverTrace td pages, c.isReadOnly = true) ∧
    applyCalls inv (resolverTrace td pages) = inv := by
  have hro : ∀ c ∈ resolverTrace td pages, c.isReadOnly = true := by
    intro c hc
    simp only [resolverTrace, List.mem_map] at hc
    obtain ⟨i, _, rfl⟩ := hc
    rfl
  exact ⟨hro, applyCalls_of_readOnly _ inv hro⟩

/-- Witness for C9: a two-page discovery run over a concrete inventory. -/
theorem resolver_read_only_witness :
    (∀ c ∈ resolverTrace tdDemo 1, c.isReadOnly = true) ∧
    applyCalls [rA, rB] (resolverTrace tdDemo 1) = [rA, rB] :=
  resolver_read_only [rA, rB] tdDemo 1

/-- Claim C10: the experiment design step persists a record for every
processed hypothesis regardless of fault-injection-service compatibility
— with status draft when the target is FIS-testable and with status
validation_failed plus explanatory notes when it is not — so no processed
hypothesis is left without a queryable record. -/
theorem design_always_persists (db : List ExperimentRecord) (hypId : String)
    (td : TargetDescriptor) (fisTestable : Bool) (why : String) :
    (designHandleCompatibility db hypId td fisTestable why).length =
      db.length + 1 ∧
    ∃ rec ∈ designHandleCompatibility db hypId td fisTestable why,
      rec.hypothesisId = hypId ∧
      (fisTestable = true → rec.status = .draft) ∧
      (fisTestable = false →
        rec.status = .validation_failed ∧ rec.notes ≠ []) := by
  cases fisTestable with
  | true =>
      refine ⟨by simp [designHandleCompatibility], ?_⟩
      refine ⟨_, List.mem_cons_self _ _, rfl, fun _ => ?_, fun h => ?_⟩
      · simp [designHandleCompatibility]
      · exact absurd h (by simp)
  | false =>
      refine ⟨by simp [designHandleCompatibility], ?_⟩
      refine ⟨_, List.mem_cons_self _ _, rfl, fun h => ?_, fun _ => ?_⟩
      · exact absurd h (by simp)
      · simp [designHandleCompatibility]

/-- Witness for C10 at a concrete FIS-incompatible hypothesis. -/
theorem design_always_persists_witness :
    (designHandleCompatibility [] "hyp-9" tdDemo false "unsupported service").length =
      ([] : List ExperimentRecord).length + 1 ∧
    ∃ rec ∈ designHandleCompatibility [] "hyp-9" tdDemo false
        "unsupported service",
      rec.hypothesisId = "hyp-9" ∧
      (false = true → rec.status = .draft) ∧
      (false = false →
        rec.status = .validation_failed ∧ rec.notes ≠ []) :=
  design_always_persists [] "hyp-9" tdDemo false "unsupported service"

theorem find?_pred_of_some {α : Type} (p : α → Bool) (l : List α) (a : α)
    (h : l.find? p = some a) : p a = true :=
  List.find?_some h

theorem findRecord_setRecord (store : List ExperimentRecord) (eid : String)
    (rec rec2 : ExperimentRecord) (h : findRecord store eid = some rec)
    (h2 : rec2.id = rec.id) :
    findRecord (setRecord store rec2) eid = some rec2 := by
  induction store with
  | nil => simp [findRecord] at h
  | cons a rest ih =>
      unfold findRecord at h ⊢
      unfold setRecord
      rw [List.map_cons]
      by_cases ha : (a.id == eid) = true
      · have hhead : List.find? (fun r => r.id == eid) (a :: rest) = some a :=
          List.find?_cons_of_pos rest ha
        rw [hhead] at h
        injection h with h3
        have hcond : (a.id == rec2.id) = true := by
          rw [beq_iff_eq, h2, ← h3]
        rw [if_pos hcond]
        have hrec2id : (rec2.id == eid) = true := by
          rw [beq_iff_eq, h2, ← h3]
          exact beq_iff_eq.mp ha
        have hhead2 : List.find? (fun r => r.id == eid)
            (rec2 :: List.map
              (fun r => if (r.id == rec2.id) = true then rec2 else r) rest) =
            some rec2 :=
          List.find?_cons_of_pos _ hrec2id
        rw [hhead2]
      · have hskip : List.find? (fun r => r.id == eid) (a :: rest) =
            List.find? (fun r => r.id == eid) rest :=
          List.find?_cons_of_neg rest ha
        rw [hskip] at h
        have hrecid : (rec.id == eid) = true :=
          find?_pred_of_some (fun r => r.id == eid) rest rec h
        have hane : ¬ ((a.id == rec2.id) = true) := by
          intro hb
          apply ha
          rw [beq_iff_eq] at hb ⊢
          rw [hb, h2]
          exact beq_iff_eq.mp hrecid
        rw [if_neg hane]
        have hskip2 : List.find? (fun r => r.id == eid)
            (a :: List.map
              (fun r => if (r.id == rec2.id) = true then rec2 else r) rest) =
            List.find? (fun r => r.id == eid)
              (List.map
                (fun r => if (r.id == rec2.id) = true then rec2 else r) rest) :=
          List.find?_cons_of_neg _ ha
        rw [hskip2]
        exact ih h

/-- Claim C8: no exception escapes the Lifecycle Controller's public
boundary — a creation request always returns either a transitioned
persisted state plus detail or a definitive error classification plus
detail — and every failing experiment that was present in the store
remains queryable afterwards in a terminal failure status with nonempty
diagnostic notes. -/
theorem controller_boundary (inv : List ResourceRecord)
    (filt : List (String × String)) (fis : FisResponse)
    (store : List ExperimentRecord) (eid : String) :
    ((∃ s d, (controllerCreate inv filt fis store eid).2 =
        .transitioned s d) ∨
     (∃ c d, (controllerCreate inv filt fis store eid).2 =
        .rejectedOp c d)) ∧
    (∀ rec, findRecord store eid = some rec →
      ∀ c d, (controllerCreate inv filt fis store eid).2 = .rejectedOp c d →
        ∃ rec2,
          findRecord (controllerCreate inv filt fis store eid).1 eid =
            some rec2 ∧
          failureStatuses.contains rec2.status = true ∧
          rec2.notes ≠ []) := by
  cases hfind : findRecord store eid with
  | none =>
      constructor
      · right
        refine ⟨.experimentNotFound, "no experiment with id " ++ eid, ?_⟩
        simp [controllerCreate, hfind]
      · intro rec hrec
        exact absurd hrec (by simp)
  | some rec =>
      cases hvt : validateTarget inv filt rec.target with
      | error e =>
          constructor
          · right
            refine ⟨.discoveryFailure e, "discovery failed", ?_⟩
            simp [controllerCreate, hfind, hvt]
          · intro rec0 hrec0 c d hcd
            simp only [controllerCreate, hfind, hvt]
            exact ⟨_, findRecord_setRecord store eid rec _ hfind rfl,
              rfl, by simp⟩
      | ok v =>
          by_cases hv : v.status = .valid
          · cases fis with
            | accepted tid =>
                constructor
                · left
                  refine ⟨.created, "created template " ++ tid, ?_⟩
                  simp [controllerCreate, hfind, hvt, hv]
                · intro rec0 hrec0 c d hcd
                  simp only [controllerCreate, hfind, hvt, if_pos hv] at hcd
                  exact absurd hcd (by simp)
            | rejectedTemplate m =>
                constructor
                · right
                  refine ⟨.templateRejected, m, ?_⟩
                  simp [controllerCreate, hfind, hvt, hv]
                · intro rec0 hrec0 c d hcd
                  simp only [controllerCreate, hfind, hvt, if_pos hv]
                  exact ⟨_, findRecord_setRecord store eid rec _ hfind rfl,
                    rfl, by simp⟩
            | rejectedLimit m =>
                constructor
                · right
                  refine ⟨.serviceLimitExceeded, m, ?_⟩
                  simp [controllerCreate, hfind, hvt, hv]
                · intro rec0 hrec0 c d hcd
                  simp only [controllerCreate, hfind, hvt, if_pos hv]
                  exact ⟨_, findRecord_setRecord store eid rec _ hfind rfl,
                    rfl, by simp⟩
            | rejectedOther m =>
                constructor
                · right
                  refine ⟨.creationFailed, m, ?_⟩
                  simp [controllerCreate, hfind, hvt, hv]
                · intro rec0 hrec0 c d hcd
                  simp only [controllerCreate, hfind, hvt, if_pos hv]
                  exact ⟨_, findRecord_setRecord store eid rec _ hfind rfl,
                    rfl, by simp⟩
          · constructor
            · right
              refine ⟨errorClassOf v.status, "validation failed", ?_⟩
              simp [controllerCreate, hfind, hvt, hv]
            · intro rec0 hrec0 c d hcd
              simp only [controllerCreate, hfind, hvt, if_neg hv]
              exact ⟨_, findRecord_setRecord store eid rec _ hfind rfl,
                rfl, by simp⟩

/-- Witness for C8: a creation request over a one-record store whose
draft experiment fails validation (no matching resources), showing the
classified rejection and the queryable failed record with notes. -/
theorem controller_boundary_witness :
    findRecord [recDraft] "exp-2" = some recDraft ∧
    (((∃ s d, (controllerCreate [] [] (.accepted "EXT9") [recDraft]
        "exp-2").2 = .transitioned s d) ∨
      (∃ c d, (controllerCreate [] [] (.accepted "EXT9") [recDraft]
        "exp-2").2 = .rejectedOp c d)) ∧
     (∀ rec, findRecord [recDraft] "exp-2" = some rec →
       ∀ c d, (controllerCreate [] [] (.accepted "EXT9") [recDraft]
           "exp-2").2 = .rejectedOp c d →
         ∃ rec2,
           findRecord (controllerCreate [] [] (.accepted "EXT9") [recDraft]
             "exp-2").1 "exp-2" = some rec2 ∧
           failureStatuses.contains rec2.status = true ∧
           rec2.notes ≠ [])) :=
  ⟨by decide, controller_boundary [] [] (.accepted "EXT9") [recDraft] "exp-2"⟩

/-- Claim C7: validation is deterministic — re-running it against the
same unchanged inventory, tag filter and target descriptor yields the
identical ValidationResult — and a creation request re-executes the full
resolve, tag-filter, precondition and selection sequence: the controller's
outcome is independent of any cached prior validation stored on the
record, and a fresh failing validation drives the outcome even when a
stale cached result said valid. -/
theorem validation_idempotent_and_rerun (inv : List ResourceRecord)
    (filt : List (String × String)) (fis : FisResponse)
    (td : TargetDescriptor) (rec : ExperimentRecord)
    (v1 v2 : Option ValidationResult) :
    validateTarget inv filt td = validateTarget inv filt td ∧
    (controllerCreate inv filt fis
        [{ rec with prevValidation := v1 }] rec.id).2 =
      (controllerCreate inv filt fis
        [{ rec with prevValidation := v2 }] rec.id).2 ∧
    (∀ v w, validateTarget inv filt rec.target = .ok v →
      v.status ≠ .valid →
      (controllerCreate inv filt fis
          [{ rec with prevValidation := some w }] rec.id).2 =
        .rejectedOp (errorClassOf v.status) "validation failed") := by
  have hfind : ∀ v0 : Option ValidationResult,
      findRecord [{ rec with prevValidation := v0 }] rec.id =
        some { rec with prevValidation := v0 } := by
    intro v0
    simp [findRecord]
  refine ⟨rfl, ?_, ?_⟩
  · cases hvt : validateTarget inv filt rec.target with
    | error e => simp [controllerCreate, hfind, hvt]
    | ok v =>
        by_cases hv : v.status = .valid
        · cases fis <;> simp [controllerCreate, hfind, hvt, hv]
        · simp [controllerCreate, hfind, hvt, hv]
  · intro v w hvt hv
    simp [controllerCreate, hfind, hvt, hv]

/-- Witness for C7 at a concrete draft experiment whose Count(1) target
validates against a one-instance inventory, with two different cached
prior validations. -/
theorem validation_idempotent_and_rerun_witness :
    validateTarget [rA] [] tdDemo = validateTarget [rA] [] tdDemo ∧
    (controllerCreate [rA] [] (.accepted "EXT7")
        [{ recDraft with prevValidation := none }] recDraft.id).2 =
      (controllerCreate [rA] [] (.accepted "EXT7")
        [{ recDraft with
            prevValidation := some (evaluateSelection .all []) }]
        recDraft.id).2 ∧
    (∀ v w, validateTarget [rA] [] recDraft.target = .ok v →
      v.status ≠ .valid →
      (controllerCreate [rA] [] (.accepted "EXT7")
          [{ recDraft with prevValidation := some w }] recDraft.id).2 =
        .rejectedOp (errorClassOf v.status) "validation failed") :=
  validation_idempotent_and_rerun [rA] [] (.accepted "EXT7") tdDemo recDraft
    none (some (evaluateSelection .all []))

end ChaosCore
